import Mathlib

/-!
Verification of the NexVue capture-and-analyze control loop.

Shallow embedding of the behavioral code of the repository:
`src/services/geminiService.ts` (the `analyzeRoadScene` Analysis Client
wrapper and the `App` component: `captureAndAnalyze`, the auto-scan
interval effect, `reset`, `stopCamera`, `speak` and the voice effect)
and the data model of `types.ts`.

Conventions of the embedding:
* React state updates are modelled as immediate functional updates on an
  explicit `AppState` record.
* String payloads handled by the Analysis Client are modelled as
  `List Char` so that the single regex-replace of the source can be
  reasoned about with list lemmas.
* The asynchronous body of `captureAndAnalyze` is given twice, and the two
  presentations share the same phase functions: a run-to-completion
  function `captureAndAnalyzeRun` (the environment supplies the outcome of
  each await), and an interleaving small-step machine over task program
  counters, used to examine concurrent invocations.
* Console logging (`console.error`) is an output, not part of `AppState`.
-/

namespace NexVue

/-! ## Data model (`types.ts`) -/

/-- The `SafetyLevel` string enum of `types.ts`. -/
inductive SafetyLevel where
  | SAFE
  | CAUTION
  | DANGER
deriving DecidableEq, Repr

/-- The `severity` union type of `Hazard` in `types.ts`. -/
inductive Severity where
  | LOW
  | MEDIUM
  | HIGH
deriving DecidableEq, Repr

/-- The `RoadSign` record of `types.ts`. -/
structure RoadSign where
  type : String
  meaning : String
  location : String
deriving DecidableEq, Repr

/-- The `Hazard` record of `types.ts`. -/
structure Hazard where
  type : String
  severity : Severity
  description : String
deriving DecidableEq, Repr

/-- The `AnalysisResult` record of `types.ts`. -/
structure AnalysisResult where
  signs : List RoadSign
  hazards : List Hazard
  safetyLevel : SafetyLevel
  recommendation : String
  timestamp : String
deriving DecidableEq, Repr

/-! ## App component state (`App` in the source) -/

/-- The `mode` state of the `App` component. -/
inductive Mode where
  | initial
  | camera
  | upload
deriving DecidableEq, Repr

/-- The `fileType` state of the `App` component. -/
inductive FileType where
  | image
  | video
deriving DecidableEq, Repr

/-- The observable fields of the `videoRef.current` element: reported
dimensions and the attached `srcObject` (a stream handle). -/
structure VideoElem where
  videoWidth : Nat
  videoHeight : Nat
  srcObject : Option Nat
deriving DecidableEq, Repr

/-- The React state of the `App` component, plus the `autoScanInterval`
ref (the id of the live interval, if any) and the presence of the DOM
refs that `captureAndAnalyze` reads. A camera stream is an opaque handle;
`stopCamera` stops its hardware tracks before discarding the handle. -/
structure AppState where
  mode : Mode
  fileType : Option FileType
  mediaSource : Option String
  cameraStream : Option Nat
  result : Option AnalysisResult
  analyzing : Bool
  error : Option String
  isVoiceEnabled : Bool
  isAutoScan : Bool
  videoRef : Option VideoElem
  canvasRef : Bool
  autoScanTimer : Option Nat
deriving DecidableEq, Repr

/-! ## Voice / TTS logic (`speak` and the result-reaction effect) -/

/-- The speech-synthesis queue: the head is the in-progress utterance,
the tail is queued behind it. `cancel` empties the whole queue. -/
abbrev SpeechQueue := List String

/-- The `speak(text, priority)` helper: no-op when voice is disabled or the platform
has no speech synthesis; with `priority` the current speech is cancelled
before the new utterance is enqueued. -/
def speak (hasSynth voiceEnabled : Bool) (queue : SpeechQueue)
    (text : String) (priority : Bool) : SpeechQueue :=
  if !voiceEnabled || !hasSynth then queue
  else
    let q := if priority then [] else queue
    q ++ [text]

/-- The `useEffect` reacting to a new result with voice: `DANGER` speaks
with priority, `CAUTION` speaks normally, anything else speaks only when
auto-scan is off. -/
def voiceEffect (hasSynth voiceEnabled autoScan : Bool)
    (result : Option AnalysisResult) (queue : SpeechQueue) : SpeechQueue :=
  match result with
  | none => queue
  | some r =>
    if voiceEnabled then
      match r.safetyLevel with
      | .DANGER => speak hasSynth voiceEnabled queue
          ("Warning. " ++ r.recommendation) true
      | .CAUTION => speak hasSynth voiceEnabled queue
          ("Caution. " ++ r.recommendation) false
      | .SAFE =>
        if !autoScan then speak hasSynth voiceEnabled queue r.recommendation false
        else queue
    else queue

/-! ## `stopCamera` and `reset` -/

/-- The `stopCamera` callback: if a camera stream is held, stop its tracks and discard
the handle; always detach `videoRef.current.srcObject`. -/
def stopCamera (s : AppState) : AppState :=
  let s1 :=
    match s.cameraStream with
    | some _ => { s with cameraStream := none }
    | none => s
  match s1.videoRef with
  | some v => { s1 with videoRef := some { v with srcObject := none } }
  | none => s1

/-- The `reset` handler: stop the camera, disable auto-scan, return to the initial
mode, and discard media source, result, file type and error. -/
def reset (s : AppState) : AppState :=
  let s1 := stopCamera s
  { s1 with
    isAutoScan := false
    mode := Mode.initial
    mediaSource := none
    result := none
    fileType := none
    error := none }

/-! ## Analysis Client payload handling (`analyzeRoadScene`, request side)

The source runs
`base64Image.replace(/^data:image\/(png|jpeg|jpg|webp);base64,/, "")`:
a single leading occurrence of one of exactly four data-URL headers is
removed; any other payload is transmitted unchanged. -/

/-- The four data-URL headers matched by the regex alternation, in the
order they are written in the source. -/
def dataUrlHeaders : List (List Char) :=
  ["data:image/png;base64,".data,
   "data:image/jpeg;base64,".data,
   "data:image/jpg;base64,".data,
   "data:image/webp;base64,".data]

/-- The `cleanBase64` computation of `analyzeRoadScene`: drop a single
leading data-URL header when it is one of the four the regex matches. -/
def cleanBase64 (base64Image : List Char) : List Char :=
  match dataUrlHeaders.find? (fun p => p.isPrefixOf base64Image) with
  | some p => base64Image.drop p.length
  | none => base64Image

/-- The inline-data payload actually transmitted to the model for a given
input payload. -/
def sentPayload (base64Image : List Char) : List Char :=
  cleanBase64 base64Image

/-! ## Analysis Client response handling (`analyzeRoadScene`, reply side)

The source awaits `ai.models.generateContent`, throws when `response.text`
is falsy, runs `JSON.parse(text) as AnalysisResult` (a type assertion —
no local validation of the parsed value), and returns the parsed value
spread together with a wall-clock `timestamp` field. The outer
`try`/`catch` logs and rethrows, so every failure propagates. -/

/-- JavaScript JSON values, as produced by `JSON.parse`. -/
inductive Json where
  | null
  | bool (b : Bool)
  | num (n : Int)
  | str (s : String)
  | arr (elems : List Json)
  | obj (fields : List (String × Json))

/-- The `response.text` a `generateContent` reply can carry: falsy
(undefined or the empty string), present but not valid JSON (so
`JSON.parse` throws), or present and parsing to a JSON value. -/
inductive ReplyText where
  | empty
  | invalid (raw : String)
  | parsed (j : Json)

/-- The outcome of the `generateContent` network call. -/
inductive GenOutcome where
  | netError (msg : String)
  | reply (t : ReplyText)

/-- The errors `analyzeRoadScene` propagates to its caller. -/
inductive AnalysisError where
  | network (msg : String)
  | noResponseText
  | parseFailure
deriving DecidableEq, Repr

/-- The enumerable own properties a JavaScript spread `{...data}` copies:
an object contributes its fields, an array its indexed elements, a string
its indexed characters, and the primitives contribute nothing. -/
def jsEnumProps : Json → List (String × Json)
  | .obj fields => fields
  | .arr xs => xs.enum.map (fun p => (toString p.1, p.2))
  | .str s => s.data.enum.map (fun p => (toString p.1, Json.str (String.singleton p.2)))
  | _ => []

/-- Setting a field of a JavaScript object literal: a later key overrides
an earlier one in place, otherwise it is appended. -/
def setField (fields : List (String × Json)) (k : String) (v : Json) :
    List (String × Json) :=
  if fields.any (fun f => f.1 == k) then
    fields.map (fun f => if f.1 == k then (k, v) else f)
  else fields ++ [(k, v)]

/-- The `{...data, timestamp: ...}` result construction of the source. -/
def withTimestamp (j : Json) (now : String) : Json :=
  Json.obj (setField (jsEnumProps j) "timestamp" (Json.str now))

/-- First field of a JavaScript object with the given key. -/
def lookupField : List (String × Json) → String → Option Json
  | [], _ => none
  | (k, v) :: fs, key => if k == key then some v else lookupField fs key

/-- The reply-side behavior of `analyzeRoadScene`, as a function of the
`generateContent` outcome: throw on network failure, throw when the reply
carries no text, throw when `JSON.parse` fails, and otherwise return the
parsed value with a timestamp stamped on — with no validation of the
parsed value beyond what the remote schema enforced. -/
def analyzeRoadScene (now : String) : GenOutcome → Except AnalysisError Json
  | .netError m => .error (.network m)
  | .reply .empty => .error .noResponseText
  | .reply (.invalid _) => .error .parseFailure
  | .reply (.parsed j) => .ok (withTimestamp j now)

/-- Whether an `analyzeRoadScene` run propagated an error. -/
def exceptIsError : Except AnalysisError Json → Bool
  | .error _ => true
  | .ok _ => false

/-- Modelled from the spec: the failure condition the spec states for the
Analysis Client — the network call fails, the reply contains no body, or
the body fails to parse. Used to compare the code against the spec. -/
def specFailureCondition : GenOutcome → Bool
  | .netError _ => true
  | .reply .empty => true
  | .reply (.invalid _) => true
  | .reply (.parsed _) => false

/-! ## `captureAndAnalyze`

The controller operation. Its body has two awaits: the
`fetch`/`FileReader` pair of the still-image capture path (reached before
`setAnalyzing(true)`), and the `analyzeRoadScene` call (reached after).
The environment supplies the outcome of each await. -/

/-- The environment of one `captureAndAnalyze` run: whether
`canvas.getContext` returns a context, what `canvas.toDataURL` yields for
the current video frame, and the outcome of the still-image
`fetch` + `readAsDataURL` pair (error, or the produced data URL). -/
structure CaptureEnv where
  ctxOk : Bool
  canvasDataUrl : String
  imageFetch : Except String String
deriving Repr

/-- What the synchronous prefix of `captureAndAnalyze` (everything up to
the first await) does. -/
inductive EntryStep where
  | noop
  | videoCaptured (url : String)
  | imageFetchStarted
deriving DecidableEq, Repr

/-- The synchronous prefix of `captureAndAnalyze`: the in-flight guard,
then frame capture dispatch. The video path captures synchronously
(skipping on zero-sized dimensions or a missing context); the image path
starts an asynchronous fetch; every other configuration leaves
`imageDataUrl` null and falls through to a no-op. -/
def entryStep (env : CaptureEnv) (s : AppState) : EntryStep :=
  if s.analyzing then .noop
  else if s.fileType = some FileType.video ∧ s.videoRef.isSome ∧ s.canvasRef then
    match s.videoRef with
    | some v =>
      if v.videoWidth = 0 ∨ v.videoHeight = 0 then .noop
      else if env.ctxOk then .videoCaptured env.canvasDataUrl
      else .noop
    | none => .noop
  else if s.fileType = some FileType.image ∧ s.mediaSource.isSome then
    .imageFetchStarted
  else .noop

/-- The state update performed when the awaited `analyzeRoadScene` call
resolves: on success the result is replaced and the error cleared; on
failure the error is surfaced only when auto-scan is off and the failure
is logged; the in-flight flag is cleared either way (the `finally`).
Returns the new state and the console log output. -/
def applyClientResult (s : AppState) (res : Except String AnalysisResult) :
    AppState × List String :=
  match res with
  | .ok r => ({ s with result := some r, error := none, analyzing := false }, [])
  | .error e =>
    ({ s with
        error := if s.isAutoScan then s.error else some "Analysis failed. Try again."
        analyzing := false }, [e])

/-- The outcome of one run-to-completion `captureAndAnalyze` invocation:
the final state, whether the Analysis Client was invoked (the in-flight
flag is set true exactly when the client is invoked, and cleared in the
`finally`), and the console log output. -/
structure ScanOutcome where
  state : AppState
  invoked : Bool
  logged : List String
deriving Repr

/-- The truthiness test `if (imageDataUrl)` on the captured data URL. -/
def urlTruthy (url : String) : Bool := url ≠ ""

/-- The analysis phase shared by both capture paths: when the captured
data URL is truthy, set the in-flight flag, invoke the client and apply
its resolution; otherwise do nothing. -/
def analysisPhase (s : AppState) (cli : Except String AnalysisResult)
    (url : String) : ScanOutcome :=
  if urlTruthy url then
    let s1 := { s with analyzing := true }
    let (s2, lg) := applyClientResult s1 cli
    ⟨s2, true, lg⟩
  else ⟨s, false, []⟩

/-- One `captureAndAnalyze` invocation run to completion with no
interleaved activity, with the environment resolving each await. -/
def captureAndAnalyzeRun (env : CaptureEnv)
    (cli : Except String AnalysisResult) (s : AppState) : ScanOutcome :=
  match entryStep env s with
  | .noop => ⟨s, false, []⟩
  | .videoCaptured url => analysisPhase s cli url
  | .imageFetchStarted =>
    match env.imageFetch with
    | .error e => ⟨s, false, [e]⟩
    | .ok url => analysisPhase s cli url

/-! ## Interleaving semantics of concurrent `captureAndAnalyze` calls

Each invocation is a task suspended at its awaits; the single-threaded
event loop interleaves their resumptions. The phase logic is exactly the
one above: in particular, after the image-path fetch resolves, the source
proceeds straight to `setAnalyzing(true)` without re-checking the guard. -/

/-- Program counter of one `captureAndAnalyze` task: not yet started,
suspended at the image-path fetch await, suspended at the
`analyzeRoadScene` await (in-flight flag already set, client invocation
active), or finished. -/
inductive TaskPC where
  | entry
  | awaitFetch
  | awaitClient
  | finished
deriving DecidableEq, Repr

/-- Shared state plus the program counters of the outstanding tasks. -/
structure Config where
  st : AppState
  tasks : List TaskPC
deriving Repr

/-- Scheduling choices of the event loop: start task `i`, resolve the
fetch task `i` awaits, or resolve the client call task `i` awaits. -/
inductive Choice where
  | start (i : Nat) (env : CaptureEnv)
  | fetchResolve (i : Nat) (res : Except String String)
  | clientResolve (i : Nat) (res : Except String AnalysisResult)
deriving Repr

/-- One interleaving step. A choice that does not match the addressed
suspension point of the addressed task changes nothing. -/
def stepTask (c : Config) : Choice → Config
  | .start i env =>
    match c.tasks.get? i with
    | some TaskPC.entry =>
      match entryStep env c.st with
      | .noop => { c with tasks := c.tasks.set i .finished }
      | .videoCaptured url =>
        if urlTruthy url then
          { st := { c.st with analyzing := true }, tasks := c.tasks.set i .awaitClient }
        else { c with tasks := c.tasks.set i .finished }
      | .imageFetchStarted => { c with tasks := c.tasks.set i .awaitFetch }
    | _ => c
  | .fetchResolve i res =>
    match c.tasks.get? i with
    | some TaskPC.awaitFetch =>
      match res with
      | .error _ => { c with tasks := c.tasks.set i .finished }
      | .ok url =>
        if urlTruthy url then
          { st := { c.st with analyzing := true }, tasks := c.tasks.set i .awaitClient }
        else { c with tasks := c.tasks.set i .finished }
    | _ => c
  | .clientResolve i res =>
    match c.tasks.get? i with
    | some TaskPC.awaitClient =>
      { st := (applyClientResult c.st res).1, tasks := c.tasks.set i .finished }
    | _ => c

/-- Run a list of scheduling choices. -/
def runChoices (c : Config) (cs : List Choice) : Config :=
  cs.foldl stepTask c

/-- Number of Analysis Client invocations active in a configuration. -/
def activeAnalyses (c : Config) : Nat :=
  c.tasks.countP (fun pc => pc == TaskPC.awaitClient)

/-! ## Auto-scan scheduler (the interval `useEffect`) and app events -/

/-- Clearing the interval held in the `autoScanInterval` ref, if any. -/
def clearAutoScanTimer (s : AppState) : AppState :=
  if s.autoScanTimer.isSome then { s with autoScanTimer := none } else s

/-- One flush of the auto-scan `useEffect` after a render in which one of
its dependencies changed: the cleanup of the previous effect run clears
the live interval, then the body installs a fresh interval when
`isAutoScan` holds and clears any held interval otherwise. -/
def autoScanEffect (s : AppState) (freshId : Nat) : AppState :=
  let s1 := clearAutoScanTimer s
  if s1.isAutoScan then { s1 with autoScanTimer := some freshId }
  else clearAutoScanTimer s1

/-- Calling `setIsAutoScan` followed by the effect flush of the re-render. -/
def setAutoScanAndFlush (s : AppState) (v : Bool) (freshId : Nat) : AppState :=
  autoScanEffect { s with isAutoScan := v } freshId

/-- Turning auto-scan off (the STOP toggle). -/
def disableAutoScan (s : AppState) : AppState :=
  setAutoScanAndFlush s false 0

/-- Events the app can process after a point in time: an interval
callback with a given id firing, the auto-scan toggle, a re-render whose
dependency change re-runs the auto-scan effect, a manual scan, or
`reset`. Ticks and scans carry the environment resolving their awaits. -/
inductive AppEv where
  | timerTick (id : Nat) (env : CaptureEnv) (cli : Except String AnalysisResult)
  | enableAutoScan (freshId : Nat)
  | disableAutoScanEv
  | depsChanged (freshId : Nat)
  | manualScan (env : CaptureEnv) (cli : Except String AnalysisResult)
  | resetEv (freshId : Nat)
deriving Repr

/-- Apply one event; the second component records whether the scheduler
invoked `captureAndAnalyze` during the event. A tick of a cleared
interval id never fires its callback. -/
def applyEv (s : AppState) : AppEv → AppState × Bool
  | .timerTick id env cli =>
    if s.autoScanTimer = some id then ((captureAndAnalyzeRun env cli s).state, true)
    else (s, false)
  | .enableAutoScan fid => (setAutoScanAndFlush s true fid, false)
  | .disableAutoScanEv => (disableAutoScan s, false)
  | .depsChanged fid => (autoScanEffect s fid, false)
  | .manualScan env cli => ((captureAndAnalyzeRun env cli s).state, false)
  | .resetEv fid => (autoScanEffect (reset s) fid, false)

/-- How many scheduler-driven `captureAndAnalyze` invocations a sequence
of events produces. -/
def schedTicks : AppState → List AppEv → Nat
  | _, [] => 0
  | s, ev :: evs =>
    let p := applyEv s ev
    (if p.2 then 1 else 0) + schedTicks p.1 evs

/-- Whether an event turns auto-scan on. -/
def isEnable : AppEv → Bool
  | .enableAutoScan _ => true
  | _ => false

/-- A sequence of events none of which turns auto-scan on. -/
def noEnable (evs : List AppEv) : Bool :=
  evs.all (fun e => !isEnable e)

/-! ## Concrete sample inputs used by witnesses and counterexamples -/

/-- A benign analysis result. -/
def sampleSafeResult : AnalysisResult :=
  { signs := [], hazards := [], safetyLevel := SafetyLevel.SAFE,
    recommendation := "Proceed", timestamp := "T" }

/-- A camera state whose video element has not reported dimensions yet. -/
def zeroDimCameraState : AppState :=
  { mode := Mode.camera, fileType := some FileType.video,
    mediaSource := none, cameraStream := some 1, result := none,
    analyzing := false, error := none, isVoiceEnabled := false,
    isAutoScan := false,
    videoRef := some { videoWidth := 0, videoHeight := 0, srcObject := some 1 },
    canvasRef := true, autoScanTimer := none }

/-- A ready camera state under auto-scan with a live interval. -/
def autoScanCameraState : AppState :=
  { mode := Mode.camera, fileType := some FileType.video,
    mediaSource := none, cameraStream := some 1, result := none,
    analyzing := false, error := none, isVoiceEnabled := false,
    isAutoScan := true,
    videoRef := some { videoWidth := 640, videoHeight := 480, srcObject := some 1 },
    canvasRef := true, autoScanTimer := some 9 }

/-- An uploaded-still-image state, ready for a manual scan. -/
def uploadedImageState : AppState :=
  { mode := Mode.upload, fileType := some FileType.image,
    mediaSource := some "blob:a", cameraStream := none, result := none,
    analyzing := false, error := none, isVoiceEnabled := false,
    isAutoScan := false, videoRef := none, canvasRef := true,
    autoScanTimer := none }

/-- An environment whose video capture succeeds. -/
def videoCaptureEnv : CaptureEnv :=
  { ctxOk := true, canvasDataUrl := "data:image/jpeg;base64,AA",
    imageFetch := .error "unused" }

/-- An environment whose still-image fetch fails. -/
def failingFetchEnv : CaptureEnv :=
  { ctxOk := true, canvasDataUrl := "", imageFetch := .error "fetch failed" }

/-- An environment whose still-image fetch succeeds. -/
def okFetchEnv : CaptureEnv :=
  { ctxOk := true, canvasDataUrl := "",
    imageFetch := .ok "data:image/jpeg;base64,AA" }

/-- The interleaving that races two `captureAndAnalyze` calls through the
asynchronous image-capture path of `uploadedImageState`: both pass the
in-flight guard before either fetch resolves, then both fetches resolve
and both invoke the Analysis Client. -/
def raceTrace : List Choice :=
  [Choice.start 0 okFetchEnv,
   Choice.start 1 okFetchEnv,
   Choice.fetchResolve 0 (.ok "data:image/jpeg;base64,AA"),
   Choice.fetchResolve 1 (.ok "data:image/jpeg;base64,AA")]

/-- An event sequence with ticks of the cancelled interval id and of
other ids, effect re-runs, a manual scan and a reset — but no re-enable
of auto-scan. -/
def postDisableEvents : List AppEv :=
  [AppEv.timerTick 9 videoCaptureEnv (.ok sampleSafeResult),
   AppEv.depsChanged 12,
   AppEv.manualScan videoCaptureEnv (.error "model unavailable"),
   AppEv.timerTick 12 videoCaptureEnv (.ok sampleSafeResult),
   AppEv.resetEv 13,
   AppEv.disableAutoScanEv]

/-! ## Helper lemmas -/

/-- A list whose truncation to the length of `q` fails the Boolean test
against `q` is not a Boolean-test heading of `q ++ rest` either, whatever
trails `q`. -/
theorem isPrefixOf_append_false (p q rest : List Char)
    (hnp : (p.take q.length).isPrefixOf q = false) :
    p.isPrefixOf (q ++ rest) = false := by
  cases hc : p.isPrefixOf (q ++ rest) with
  | false => rfl
  | true =>
    have hp := List.isPrefixOf_iff_prefix.mp hc
    have h2 := hp.take q.length
    rw [List.take_left] at h2
    have h3 := List.isPrefixOf_iff_prefix.mpr h2
    rw [hnp] at h3
    exact absurd h3 (by simp)

/-- The Boolean test accepts every list as heading itself extended. -/
theorem isPrefixOf_append_self (p rest : List Char) :
    p.isPrefixOf (p ++ rest) = true :=
  List.isPrefixOf_iff_prefix.mpr (List.prefix_append p rest)

/-! ## Claims -/

/-- C3: `reset()` is idempotent, and for every prior state it returns the
system to the baseline state: initial mode, no camera stream and no media
source (the capture session is gone), no `AnalysisResult`, no error, and
auto-scan disabled. -/
theorem c3_reset_idempotent_baseline (s : AppState) :
    reset (reset s) = reset s ∧
    (reset s).mode = Mode.initial ∧
    (reset s).cameraStream = none ∧
    (reset s).mediaSource = none ∧
    (reset s).result = none ∧
    (reset s).error = none ∧
    (reset s).isAutoScan = false ∧
    (reset s).fileType = none := by
  obtain ⟨mo, ft, ms, cs, res, an, er, ve, ia, vr, cr, ti⟩ := s
  cases cs <;> rcases vr with _ | ⟨w, hgt, so⟩ <;> simp [reset, stopCamera]

/-- C5: with voice enabled, a `DANGER` result is spoken with priority —
the whole speech queue (any in-progress utterance included) is cancelled
before the danger message is spoken — while a `CAUTION` result is queued
after any current utterance without cancelling anything. -/
theorem c5_danger_priority_caution_queued
    (hasSynth voiceEnabled autoScan : Bool) (r : AnalysisResult)
    (queue : SpeechQueue) (hs : hasSynth = true) (hv : voiceEnabled = true) :
    (r.safetyLevel = SafetyLevel.DANGER →
      voiceEffect hasSynth voiceEnabled autoScan (some r) queue =
        ["Warning. " ++ r.recommendation]) ∧
    (r.safetyLevel = SafetyLevel.CAUTION →
      voiceEffect hasSynth voiceEnabled autoScan (some r) queue =
        queue ++ ["Caution. " ++ r.recommendation]) := by
  subst hs hv
  constructor <;> intro h <;> simp [voiceEffect, speak, h]

/-- Witness for C5 at a concrete danger result, a concrete caution
result, and a busy queue. -/
theorem c5_danger_priority_caution_queued_witness :
    (true = true) ∧ (true = true) ∧
    ((({ signs := [], hazards := [], safetyLevel := SafetyLevel.DANGER,
         recommendation := "Stop now", timestamp := "T" } : AnalysisResult).safetyLevel
        = SafetyLevel.DANGER →
      voiceEffect true true false
        (some { signs := [], hazards := [], safetyLevel := SafetyLevel.DANGER,
                recommendation := "Stop now", timestamp := "T" }) ["old speech"] =
        ["Warning. " ++ "Stop now"]) ∧
     (({ signs := [], hazards := [], safetyLevel := SafetyLevel.DANGER,
         recommendation := "Stop now", timestamp := "T" } : AnalysisResult).safetyLevel
        = SafetyLevel.CAUTION →
      voiceEffect true true false
        (some { signs := [], hazards := [], safetyLevel := SafetyLevel.DANGER,
                recommendation := "Stop now", timestamp := "T" }) ["old speech"] =
        ["old speech"] ++ ["Caution. " ++ "Stop now"])) :=
  ⟨rfl, rfl,
    c5_danger_priority_caution_queued true true false
      { signs := [], hazards := [], safetyLevel := SafetyLevel.DANGER,
        recommendation := "Stop now", timestamp := "T" } ["old speech"] rfl rfl⟩

/-- C6: with voice enabled, a `SAFE` result is spoken (queued, without
priority) exactly when auto-scan is not active, and is never spoken while
auto-scan is active. -/
theorem c6_safe_spoken_iff_not_autoscan
    (hasSynth voiceEnabled autoScan : Bool) (r : AnalysisResult)
    (queue : SpeechQueue) (hs : hasSynth = true) (hv : voiceEnabled = true)
    (hsafe : r.safetyLevel = SafetyLevel.SAFE) :
    (autoScan = false →
      voiceEffect hasSynth voiceEnabled autoScan (some r) queue =
        queue ++ [r.recommendation]) ∧
    (autoScan = true →
      voiceEffect hasSynth voiceEnabled autoScan (some r) queue = queue) := by
  subst hs hv
  constructor <;> intro h <;> subst h <;> simp [voiceEffect, speak, hsafe]

/-- Witness for C6 at a concrete safe result, both with auto-scan off and
(through a second application at `autoScan := true` being impossible in
one witness) the manual-scan side evaluated concretely. -/
theorem c6_safe_spoken_iff_not_autoscan_witness :
    (true = true) ∧ (true = true) ∧
    (({ signs := [], hazards := [], safetyLevel := SafetyLevel.SAFE,
        recommendation := "Proceed", timestamp := "T" } : AnalysisResult).safetyLevel
       = SafetyLevel.SAFE) ∧
    ((false = false →
      voiceEffect true true false
        (some { signs := [], hazards := [], safetyLevel := SafetyLevel.SAFE,
                recommendation := "Proceed", timestamp := "T" }) ["busy"] =
        ["busy"] ++ ["Proceed"]) ∧
     (false = true →
      voiceEffect true true false
        (some { signs := [], hazards := [], safetyLevel := SafetyLevel.SAFE,
                recommendation := "Proceed", timestamp := "T" }) ["busy"] = ["busy"])) :=
  ⟨rfl, rfl, rfl,
    c6_safe_spoken_iff_not_autoscan true true false
      { signs := [], hazards := [], safetyLevel := SafetyLevel.SAFE,
        recommendation := "Proceed", timestamp := "T" } ["busy"] rfl rfl rfl⟩

/-- C7 counterexample: the source only strips the four headers of its
regex alternation; a GIF data URL is transmitted unchanged, so the
transmitted payload still begins with a data-URL format header. The
claim that the transmitted data never begins with a format prefix is
therefore false at this input. -/
theorem c7_counterexample_gif_header_survives :
    sentPayload "data:image/gif;base64,AAAA".data =
      "data:image/gif;base64,AAAA".data ∧
    ("data:image/".data).isPrefixOf
      (sentPayload "data:image/gif;base64,AAAA".data) = true := by
  constructor
  · rfl
  · decide

/-- C7 (amended): `analyzeRoadScene` strips exactly one leading data-URL
header from the payload when it is one of the four the source regex
names — `png`, `jpeg`, `jpg`, `webp` — and transmits every other payload
unchanged. -/
theorem c7_single_known_header_stripped (rest s : List Char)
    (h1 : ("data:image/png;base64,".data).isPrefixOf s = false)
    (h2 : ("data:image/jpeg;base64,".data).isPrefixOf s = false)
    (h3 : ("data:image/jpg;base64,".data).isPrefixOf s = false)
    (h4 : ("data:image/webp;base64,".data).isPrefixOf s = false) :
    sentPayload ("data:image/png;base64,".data ++ rest) = rest ∧
    sentPayload ("data:image/jpeg;base64,".data ++ rest) = rest ∧
    sentPayload ("data:image/jpg;base64,".data ++ rest) = rest ∧
    sentPayload ("data:image/webp;base64,".data ++ rest) = rest ∧
    sentPayload s = s := by
  refine ⟨?_, ?_, ?_, ?_, ?_⟩
  · unfold sentPayload cleanBase64 dataUrlHeaders
    rw [List.find?_cons_of_pos _
      (by simp [isPrefixOf_append_self "data:image/png;base64,".data rest])]
    exact List.drop_left _ _
  · unfold sentPayload cleanBase64 dataUrlHeaders
    rw [List.find?_cons_of_neg _
        (by simp [isPrefixOf_append_false "data:image/png;base64,".data
          "data:image/jpeg;base64,".data rest (by decide)]),
      List.find?_cons_of_pos _
        (by simp [isPrefixOf_append_self "data:image/jpeg;base64,".data rest])]
    exact List.drop_left _ _
  · unfold sentPayload cleanBase64 dataUrlHeaders
    rw [List.find?_cons_of_neg _
        (by simp [isPrefixOf_append_false "data:image/png;base64,".data
          "data:image/jpg;base64,".data rest (by decide)]),
      List.find?_cons_of_neg _
        (by simp [isPrefixOf_append_false "data:image/jpeg;base64,".data
          "data:image/jpg;base64,".data rest (by decide)]),
      List.find?_cons_of_pos _
        (by simp [isPrefixOf_append_self "data:image/jpg;base64,".data rest])]
    exact List.drop_left _ _
  · unfold sentPayload cleanBase64 dataUrlHeaders
    rw [List.find?_cons_of_neg _
        (by simp [isPrefixOf_append_false "data:image/png;base64,".data
          "data:image/webp;base64,".data rest (by decide)]),
      List.find?_cons_of_neg _
        (by simp [isPrefixOf_append_false "data:image/jpeg;base64,".data
          "data:image/webp;base64,".data rest (by decide)]),
      List.find?_cons_of_neg _
        (by simp [isPrefixOf_append_false "data:image/jpg;base64,".data
          "data:image/webp;base64,".data rest (by decide)]),
      List.find?_cons_of_pos _
        (by simp [isPrefixOf_append_self "data:image/webp;base64,".data rest])]
    exact List.drop_left _ _
  · unfold sentPayload cleanBase64 dataUrlHeaders
    rw [List.find?_cons_of_neg _ (by simp [h1]), List.find?_cons_of_neg _ (by simp [h2]),
      List.find?_cons_of_neg _ (by simp [h3]), List.find?_cons_of_neg _ (by simp [h4])]
    rfl

/-- Looking up a key is unaffected by appending an entry with a
different key. -/
theorem lookupField_append_single (fields : List (String × Json))
    (k key : String) (v : Json) (h : (k == key) = false) :
    lookupField (fields ++ [(k, v)]) key = lookupField fields key := by
  induction fields with
  | nil => simp [lookupField, h]
  | cons f fs ih =>
    obtain ⟨k1, v1⟩ := f
    simp [lookupField, ih]

/-- Looking up a key is unaffected by overriding every entry keyed by a
different key in place. -/
theorem lookupField_map_override (fields : List (String × Json))
    (k key : String) (v : Json) (h : (k == key) = false) :
    lookupField (fields.map (fun f => if f.1 == k then (k, v) else f)) key =
      lookupField fields key := by
  induction fields with
  | nil => rfl
  | cons f fs ih =>
    obtain ⟨k1, v1⟩ := f
    by_cases hk : k1 = k
    · subst hk
      have hhead : (if ((k1, v1).1 == k1) = true then (k1, v) else (k1, v1)) = (k1, v) :=
        if_pos (by simp)
      rw [List.map_cons, hhead]
      simp only [beq_iff_eq] at ih
      simp [lookupField, h, ih]
    · have hhead : (if ((k1, v1).1 == k) = true then (k, v) else (k1, v1)) = (k1, v1) :=
        if_neg (by simp [hk])
      rw [List.map_cons, hhead]
      simp only [beq_iff_eq] at ih
      simp [lookupField, ih]

/-- Looking up a key is unaffected by setting a different key. -/
theorem lookupField_setField_ne (fields : List (String × Json))
    (k key : String) (v : Json) (h : (k == key) = false) :
    lookupField (setField fields k v) key = lookupField fields key := by
  unfold setField
  split
  · exact lookupField_map_override fields k key v h
  · exact lookupField_append_single fields k key v h

/-- C8: `analyzeRoadScene` propagates an error exactly when the network
call fails, the reply carries no text, or the text fails to parse as
JSON; and a parsed value is returned with only a timestamp stamped on —
in particular a malformed `safetyLevel` enum value survives unmodified
rather than being coerced to a default. -/
theorem c8_error_iff_and_enum_passthrough (now : String) (out : GenOutcome)
    (fields : List (String × Json)) (v : Json)
    (h : lookupField fields "safetyLevel" = some v) :
    exceptIsError (analyzeRoadScene now out) = specFailureCondition out ∧
    analyzeRoadScene now (.reply (.parsed (.obj fields))) =
      .ok (.obj (setField fields "timestamp" (Json.str now))) ∧
    lookupField (setField fields "timestamp" (Json.str now)) "safetyLevel" =
      some v := by
  refine ⟨?_, rfl, ?_⟩
  · cases out with
    | netError m => rfl
    | reply t => cases t <;> rfl
  · rw [lookupField_setField_ne fields "timestamp" "safetyLevel" (Json.str now)
      (by decide), h]

/-- Witness for C8 at a network failure outcome and an object whose
`safetyLevel` carries the malformed enum value `BANANA`. -/
theorem c8_error_iff_and_enum_passthrough_witness :
    lookupField [("safetyLevel", Json.str "BANANA")] "safetyLevel" =
      some (Json.str "BANANA") ∧
    (exceptIsError (analyzeRoadScene "10:00:00" (.netError "offline")) =
      specFailureCondition (.netError "offline") ∧
     analyzeRoadScene "10:00:00"
        (.reply (.parsed (.obj [("safetyLevel", Json.str "BANANA")]))) =
      .ok (.obj (setField [("safetyLevel", Json.str "BANANA")] "timestamp"
        (Json.str "10:00:00"))) ∧
     lookupField (setField [("safetyLevel", Json.str "BANANA")] "timestamp"
        (Json.str "10:00:00")) "safetyLevel" = some (Json.str "BANANA")) :=
  ⟨rfl, c8_error_iff_and_enum_passthrough "10:00:00" (.netError "offline")
    [("safetyLevel", Json.str "BANANA")] (Json.str "BANANA") rfl⟩

/-- C9: a `requestScan` on a video source whose reported dimensions are
zero returns immediately with no state change: the state is untouched (no
error set, prior result retained), the in-flight flag is never set, the
Analysis Client is not invoked, and nothing is even logged. -/
theorem c9_zero_dims_silent_skip (env : CaptureEnv)
    (cli : Except String AnalysisResult) (s : AppState) (v : VideoElem)
    (han : s.analyzing = false)
    (hft : s.fileType = some FileType.video)
    (hvr : s.videoRef = some v)
    (hcr : s.canvasRef = true)
    (hdim : v.videoWidth = 0 ∨ v.videoHeight = 0) :
    captureAndAnalyzeRun env cli s = ⟨s, false, []⟩ := by
  have he : entryStep env s = EntryStep.noop := by
    unfold entryStep
    rcases hdim with h | h <;>
      simp [han, hft, hvr, hcr, h]
  unfold captureAndAnalyzeRun
  rw [he]

/-- Witness for C9 at a concrete camera state whose video element has
not reported dimensions yet. -/
theorem c9_zero_dims_silent_skip_witness :
    zeroDimCameraState.analyzing = false ∧
    captureAndAnalyzeRun videoCaptureEnv (.ok sampleSafeResult)
      zeroDimCameraState = ⟨zeroDimCameraState, false, []⟩ :=
  ⟨rfl, c9_zero_dims_silent_skip _ _ _
    { videoWidth := 0, videoHeight := 0, srcObject := some 1 }
    rfl rfl rfl rfl (Or.inl rfl)⟩

/-- C10: for a still-image source, a failed `fetch`/base64 decode aborts
silently: the failure is only logged, no user-visible error is set, the
in-flight flag is never set, the Analysis Client is not invoked, and the
state is entirely unchanged. -/
theorem c10_image_fetch_failure_silent (env : CaptureEnv)
    (cli : Except String AnalysisResult) (s : AppState) (e : String)
    (han : s.analyzing = false)
    (hft : s.fileType = some FileType.image)
    (hms : s.mediaSource.isSome = true)
    (hfetch : env.imageFetch = .error e) :
    captureAndAnalyzeRun env cli s = ⟨s, false, [e]⟩ := by
  have he : entryStep env s = EntryStep.imageFetchStarted := by
    unfold entryStep
    simp [han, hft, hms]
  unfold captureAndAnalyzeRun
  rw [he, hfetch]

/-- Witness for C10 at a concrete uploaded-image state whose fetch
fails. -/
theorem c10_image_fetch_failure_silent_witness :
    uploadedImageState.analyzing = false ∧
    captureAndAnalyzeRun failingFetchEnv (.ok sampleSafeResult)
      uploadedImageState = ⟨uploadedImageState, false, ["fetch failed"]⟩ :=
  ⟨rfl, c10_image_fetch_failure_silent _ _ _ "fetch failed" rfl rfl rfl rfl⟩

/-- C4: a failed analysis attempt clears the in-flight flag, surfaces the
error exactly when auto-scan is inactive (under auto-scan the prior error
field is left as it was), always logs the failure, and leaves every other
piece of state unchanged. Stated on the video capture path, whose scan
proceeds to the Analysis Client. -/
theorem c4_failure_clears_inflight_error_iff_manual (env : CaptureEnv)
    (s : AppState) (v : VideoElem) (e : String)
    (han : s.analyzing = false)
    (hft : s.fileType = some FileType.video)
    (hvr : s.videoRef = some v)
    (hcr : s.canvasRef = true)
    (hw : v.videoWidth ≠ 0) (hh : v.videoHeight ≠ 0)
    (hctx : env.ctxOk = true)
    (hurl : env.canvasDataUrl ≠ "") :
    captureAndAnalyzeRun env (.error e) s =
      ⟨{ s with
          error := if s.isAutoScan then s.error
                   else some "Analysis failed. Try again."
          analyzing := false }, true, [e]⟩ := by
  have he : entryStep env s = EntryStep.videoCaptured env.canvasDataUrl := by
    unfold entryStep
    simp [han, hft, hvr, hcr, hw, hh, hctx]
  unfold captureAndAnalyzeRun
  rw [he]
  unfold analysisPhase applyClientResult urlTruthy
  simp [hurl, han]

/-- Witness for C4 at a concrete camera state under auto-scan, where the
failure leaves the error field untouched. -/
theorem c4_failure_clears_inflight_error_iff_manual_witness :
    autoScanCameraState.analyzing = false ∧
    captureAndAnalyzeRun videoCaptureEnv (.error "model unavailable")
      autoScanCameraState =
      ⟨{ autoScanCameraState with
          error := (if autoScanCameraState.isAutoScan then autoScanCameraState.error
                    else some "Analysis failed. Try again.")
          analyzing := false }, true, ["model unavailable"]⟩ :=
  ⟨rfl, c4_failure_clears_inflight_error_iff_manual _ _
    { videoWidth := 640, videoHeight := 480, srcObject := some 1 }
    "model unavailable" rfl rfl rfl rfl (by decide) (by decide) rfl (by decide)⟩

/-- C1: the in-flight guard does NOT serialize calls that race through
the asynchronous image-capture path. Starting from an uploaded-image
state with `analyzing = false`, two `captureAndAnalyze` invocations
interleave as `raceTrace`: both pass the `if (analyzing) return` guard
before either fetch resolves (the flag is only set after the await), and
the resulting configuration has two Analysis Client invocations active
at the same instant — contradicting the claim that every call issued
while an analysis is in flight is a no-op and that overlapping requests
are never issued. -/
theorem c1_overlapping_requests_on_image_path :
    uploadedImageState.analyzing = false ∧
    activeAnalyses (runChoices ⟨uploadedImageState, [TaskPC.entry, TaskPC.entry]⟩
      raceTrace) = 2 := by
  constructor
  · rfl
  · rfl

/-- Clearing the interval does not change the auto-scan toggle. -/
theorem clearAutoScanTimer_isAutoScan (s : AppState) :
    (clearAutoScanTimer s).isAutoScan = s.isAutoScan := by
  unfold clearAutoScanTimer
  split <;> rfl

/-- After clearing, no interval is held. -/
theorem clearAutoScanTimer_timer (s : AppState) :
    (clearAutoScanTimer s).autoScanTimer = none := by
  unfold clearAutoScanTimer
  split
  · rfl
  · next h => exact Option.not_isSome_iff_eq_none.mp h

/-- A flush of the auto-scan effect while the toggle is off leaves the
toggle off and holds no interval. -/
theorem autoScanEffect_disabled (s : AppState) (fid : Nat)
    (ha : s.isAutoScan = false) :
    (autoScanEffect s fid).isAutoScan = false ∧
    (autoScanEffect s fid).autoScanTimer = none := by
  unfold autoScanEffect
  rw [if_neg (by rw [clearAutoScanTimer_isAutoScan, ha]; exact Bool.false_ne_true)]
  exact ⟨by rw [clearAutoScanTimer_isAutoScan, clearAutoScanTimer_isAutoScan, ha],
    clearAutoScanTimer_timer _⟩

/-- A `captureAndAnalyze` run never touches the auto-scan toggle or the
interval ref. -/
theorem captureAndAnalyzeRun_scan_flags (env : CaptureEnv)
    (cli : Except String AnalysisResult) (s : AppState) :
    (captureAndAnalyzeRun env cli s).state.isAutoScan = s.isAutoScan ∧
    (captureAndAnalyzeRun env cli s).state.autoScanTimer = s.autoScanTimer := by
  cases he : entryStep env s with
  | noop => simp [captureAndAnalyzeRun, he]
  | videoCaptured url =>
    cases cli <;>
      simp only [captureAndAnalyzeRun, he, analysisPhase, applyClientResult] <;>
      split <;> simp
  | imageFetchStarted =>
    cases hf : env.imageFetch with
    | error e => simp [captureAndAnalyzeRun, he, hf]
    | ok url =>
      cases cli <;>
        simp only [captureAndAnalyzeRun, he, hf, analysisPhase, applyClientResult] <;>
        split <;> simp

/-- Running `reset` turns the auto-scan toggle off. -/
theorem reset_isAutoScan (s : AppState) : (reset s).isAutoScan = false := by
  unfold reset stopCamera
  split <;> rfl

/-- Every event other than re-enabling auto-scan preserves the disabled
configuration (toggle off, no interval held) and fires no scheduler
tick. -/
theorem applyEv_preserves_disabled (s : AppState) (ev : AppEv)
    (hne : isEnable ev = false)
    (ha : s.isAutoScan = false) (ht : s.autoScanTimer = none) :
    (applyEv s ev).1.isAutoScan = false ∧
    (applyEv s ev).1.autoScanTimer = none ∧
    (applyEv s ev).2 = false := by
  cases ev with
  | timerTick id env cli => simp [applyEv, ht, ha]
  | enableAutoScan fid => exact absurd hne (by simp [isEnable])
  | disableAutoScanEv =>
    have h := autoScanEffect_disabled { s with isAutoScan := false } 0 rfl
    exact ⟨h.1, h.2, rfl⟩
  | depsChanged fid =>
    have h := autoScanEffect_disabled s fid ha
    exact ⟨h.1, h.2, rfl⟩
  | manualScan env cli =>
    have h := captureAndAnalyzeRun_scan_flags env cli s
    exact ⟨h.1.trans ha, h.2.trans ht, rfl⟩
  | resetEv fid =>
    have h := autoScanEffect_disabled (reset s) fid (reset_isAutoScan s)
    exact ⟨h.1, h.2, rfl⟩

/-- From a disabled configuration, an event sequence that never
re-enables auto-scan produces no scheduler-driven scan at all. -/
theorem schedTicks_zero (evs : List AppEv) : ∀ s : AppState,
    noEnable evs = true → s.isAutoScan = false → s.autoScanTimer = none →
    schedTicks s evs = 0 := by
  induction evs with
  | nil => intro s _ _ _; rfl
  | cons ev evs ih =>
    intro s hne ha ht
    have hsplit : isEnable ev = false ∧ noEnable evs = true := by
      simpa [noEnable] using hne
    obtain ⟨h1, h2, h3⟩ := applyEv_preserves_disabled s ev hsplit.1 ha ht
    simp only [schedTicks]
    simp [h3, ih (applyEv s ev).1 hsplit.2 h1 h2]

/-- C2: once the call disabling auto-scan returns, the pending interval
is cancelled (no interval id is held any more), and along every
subsequent event sequence that does not re-enable auto-scan — further
ticks of old interval ids, mode/source-change effect re-runs, manual
scans, resets, teardown-style re-flushes — the scheduler never invokes
`requestScan` again. -/
theorem c2_disable_autoscan_no_further_scheduler_scans
    (s : AppState) (evs : List AppEv) (hne : noEnable evs = true) :
    (disableAutoScan s).autoScanTimer = none ∧
    schedTicks (disableAutoScan s) evs = 0 := by
  have h := autoScanEffect_disabled { s with isAutoScan := false } 0 rfl
  exact ⟨h.2, schedTicks_zero evs (disableAutoScan s) hne h.1 h.2⟩

/-- Witness for C2: disabling auto-scan on a live auto-scanning camera
state, then replaying ticks of the cancelled id, effect re-runs, manual
scans and a reset. -/
theorem c2_disable_autoscan_no_further_scheduler_scans_witness :
    noEnable postDisableEvents = true ∧
    ((disableAutoScan autoScanCameraState).autoScanTimer = none ∧
     schedTicks (disableAutoScan autoScanCameraState) postDisableEvents = 0) :=
  ⟨by decide,
    c2_disable_autoscan_no_further_scheduler_scans autoScanCameraState
      postDisableEvents (by decide)⟩

/-- Witness for C7 (amended) at a concrete suffix and a concrete
header-free payload. -/
theorem c7_single_known_header_stripped_witness :
    (("data:image/png;base64,".data).isPrefixOf "rawPayload".data = false) ∧
    (("data:image/jpeg;base64,".data).isPrefixOf "rawPayload".data = false) ∧
    (("data:image/jpg;base64,".data).isPrefixOf "rawPayload".data = false) ∧
    (("data:image/webp;base64,".data).isPrefixOf "rawPayload".data = false) ∧
    (sentPayload ("data:image/png;base64,".data ++ "AAAA".data) = "AAAA".data ∧
     sentPayload ("data:image/jpeg;base64,".data ++ "AAAA".data) = "AAAA".data ∧
     sentPayload ("data:image/jpg;base64,".data ++ "AAAA".data) = "AAAA".data ∧
     sentPayload ("data:image/webp;base64,".data ++ "AAAA".data) = "AAAA".data ∧
     sentPayload "rawPayload".data = "rawPayload".data) :=
  ⟨by decide, by decide, by decide, by decide,
    c7_single_known_header_stripped "AAAA".data "rawPayload".data
      (by decide) (by decide) (by decide) (by decide)⟩

end NexVue
